import Mathlib

/-!
Verification development for the smart_lighting repository.

The core logic (offset interpolation, daylight-dependent segment boundaries,
and time-of-day lighting preset selection) is embedded shallowly over ℚ:
Python decimal-hour floats are modelled as exact rationals, Python ints as ℤ.
Source files embedded here:
  - src/python_scripts/smart_light_controller.py  (scale_offset,
    get_dynamic_transitions, calculate_settings_by_time)
  - src/explorable/explore_dynamic_transitions.py and
    src/explorable/explore_light_settings.py (the "explore" variant of
    get_dynamic_transitions / calculate_settings_by_time, and
    convert_stringtime_to_decimaltime)
-/

namespace SmartLighting

/-- Model of Python `int(x)` applied to a (rational-valued) float: truncation
toward zero. -/
def py_int (q : ℚ) : ℤ :=
  if q < 0 then ⌈q⌉ else ⌊q⌋

/-- From smart_light_controller.py, `scale_offset`:
`day_hours = max(min_daylight, min(daylight_hours, max_daylight))`,
`ratio = (day_hours - min_daylight) / (max_daylight - min_daylight)`,
returns `min_offset + (max_offset - min_offset) * (1 - ratio)`. -/
def scale_offset (daylight_hours min_daylight max_daylight min_offset max_offset : ℚ) : ℚ :=
  let day_hours := max min_daylight (min daylight_hours max_daylight)
  let ratio := (day_hours - min_daylight) / (max_daylight - min_daylight)
  min_offset + (max_offset - min_offset) * (1 - ratio)

/-- Modelled from the spec's words (section 4.1), for comparison against the
source `scale_offset`: clamp `daylight_hours` into `[min_daylight, max_daylight]`
(written here from the `[lo, hi]`-interval side, `min hi (max lo x)`), compute
`ratio = (clamped - min_daylight) / (max_daylight - min_daylight)`, and return
`min_offset + (max_offset - min_offset) * (1 - ratio)`. -/
def scale_offset_spec (daylight_hours min_daylight max_daylight min_offset max_offset : ℚ) : ℚ :=
  let clamped := min max_daylight (max min_daylight daylight_hours)
  let ratio := (clamped - min_daylight) / (max_daylight - min_daylight)
  min_offset + (max_offset - min_offset) * (1 - ratio)

/-- The eight segment-boundary markers returned (as a dict) by
`get_dynamic_transitions`. -/
structure SegmentBoundaries where
  morning_start : ℚ
  morning_end : ℚ
  day_start : ℚ
  day_end : ℚ
  evening_start : ℚ
  evening_end : ℚ
  twilight_start : ℚ
  twilight_end : ℚ
deriving Repr, DecidableEq

/-- From smart_light_controller.py, `get_dynamic_transitions` (the canonical
variant): fixed morning window `sunrise - 1 .. sunrise + 2`, evening offset
range `.5 .. 2.0`, twilight offset range `.3 .. 1.0`.  `MIN_DAYLIGHT` and
`MAX_DAYLIGHT` are configuration globals in the script, passed explicitly
here. -/
def get_dynamic_transitions (MIN_DAYLIGHT MAX_DAYLIGHT local_sunrise local_sunset : ℚ) :
    SegmentBoundaries :=
  let daylight_hours := local_sunset - local_sunrise
  let evening_offset := scale_offset daylight_hours MIN_DAYLIGHT MAX_DAYLIGHT (1/2) 2
  let twilight_offset := scale_offset daylight_hours MIN_DAYLIGHT MAX_DAYLIGHT (3/10) 1
  let evening_start := local_sunset
  let evening_end := evening_start + evening_offset
  let twilight_start := evening_end
  let twilight_end := twilight_start + twilight_offset
  { morning_start := local_sunrise - 1
    morning_end := local_sunrise + 2
    day_start := local_sunrise + 2
    day_end := local_sunset
    evening_start := evening_start
    evening_end := evening_end
    twilight_start := twilight_start
    twilight_end := twilight_end }

/-- From explore_light_settings.py / explore_dynamic_transitions.py,
`get_dynamic_transitions` (the "explore" variant): offset-derived morning
window with a special branch when `daylight_hours > 14`, evening offset range
`.5 .. 2.75`, twilight offset range `.5 .. 2.0`. -/
def get_dynamic_transitions_explore
    (MIN_DAYLIGHT MAX_DAYLIGHT local_sunrise local_sunset : ℚ) : SegmentBoundaries :=
  let daylight_hours := local_sunset - local_sunrise
  let morning_offset := scale_offset daylight_hours MIN_DAYLIGHT MAX_DAYLIGHT (3/4) 1
  let evening_offset := scale_offset daylight_hours MIN_DAYLIGHT MAX_DAYLIGHT (1/2) (11/4)
  let twilight_offset := scale_offset daylight_hours MIN_DAYLIGHT MAX_DAYLIGHT (1/2) 2
  let morning_start := if daylight_hours > 14 then local_sunrise
    else local_sunrise - morning_offset
  let morning_end := if daylight_hours > 14 then local_sunrise + 2
    else local_sunrise + morning_offset
  let evening_start := if daylight_hours > 14 then local_sunset - 1 else local_sunset
  let evening_end := local_sunset + evening_offset
  let twilight_end := evening_end + twilight_offset
  { morning_start := morning_start
    morning_end := morning_end
    day_start := morning_end
    day_end := evening_start
    evening_start := evening_start
    evening_end := evening_end
    twilight_start := evening_end
    twilight_end := twilight_end }

/-- The `"morning"` entry's `condition` lambda in `calculate_settings_by_time`. -/
def morning_condition (transitions : SegmentBoundaries) (current_hour : ℚ) : Prop :=
  transitions.morning_start ≤ current_hour ∧ current_hour < transitions.morning_end

/-- The `"day"` entry's `condition` lambda in `calculate_settings_by_time`. -/
def day_condition (transitions : SegmentBoundaries) (current_hour : ℚ) : Prop :=
  transitions.day_start ≤ current_hour ∧ current_hour < transitions.day_end

/-- The `"evening"` entry's `condition` lambda in `calculate_settings_by_time`. -/
def evening_condition (transitions : SegmentBoundaries) (current_hour : ℚ) : Prop :=
  transitions.evening_start ≤ current_hour ∧ current_hour < transitions.evening_end

/-- The `"twilight"` entry's `condition` lambda in `calculate_settings_by_time`. -/
def twilight_condition (transitions : SegmentBoundaries) (current_hour : ℚ) : Prop :=
  transitions.twilight_start ≤ current_hour ∧ current_hour < transitions.twilight_end

/-- The `"night"` entry's `condition` lambda in `calculate_settings_by_time`:
`(current_hour >= twilight_end and current_hour < 24) or
(current_hour >= 0 and current_hour < morning_start)`. -/
def night_condition (transitions : SegmentBoundaries) (current_hour : ℚ) : Prop :=
  (current_hour ≥ transitions.twilight_end ∧ current_hour < 24) ∨
    (current_hour ≥ 0 ∧ current_hour < transitions.morning_start)

instance (t : SegmentBoundaries) (h : ℚ) : Decidable (morning_condition t h) :=
  inferInstanceAs (Decidable (_ ∧ _))

instance (t : SegmentBoundaries) (h : ℚ) : Decidable (day_condition t h) :=
  inferInstanceAs (Decidable (_ ∧ _))

instance (t : SegmentBoundaries) (h : ℚ) : Decidable (evening_condition t h) :=
  inferInstanceAs (Decidable (_ ∧ _))

instance (t : SegmentBoundaries) (h : ℚ) : Decidable (twilight_condition t h) :=
  inferInstanceAs (Decidable (_ ∧ _))

instance (t : SegmentBoundaries) (h : ℚ) : Decidable (night_condition t h) :=
  inferInstanceAs (Decidable (_ ∨ _))

/-- The record returned by `calculate_settings_by_time`
(`mode`, `brightness_pct`, `color_temp_kelvin`, `idle_timeout_sec`,
`light_entity`). -/
structure LightingPreset where
  mode : String
  brightness_pct : ℤ
  color_temp_kelvin : ℤ
  idle_timeout_sec : ℤ
  light_entity : String
deriving Repr, DecidableEq

/-- The `time_modes` lookup table and first-matching-condition loop of
`calculate_settings_by_time`, factored over an already-computed `transitions`
record (both repository variants share this body verbatim).  `int(...)` is
`py_int`, Python `//` on ints is `Int.fdiv`, and Python truthiness of
`nightlight_brightness_pct` / `nightlight_entity` is modelled on
`Option` (with `0` and `""` falsy). -/
def settings_from_transitions
    (BRIGHTNESS_LOW BRIGHTNESS_HIGH COLOR_TEMP_LOW COLOR_TEMP_HIGH : ℤ)
    (light_entity : String) (transitions : SegmentBoundaries) (current_hour : ℚ)
    (idle_timeout_day idle_timeout_evening idle_timeout_night : ℤ)
    (nightlight_brightness_pct : Option ℤ) (nightlight_entity : Option String) :
    Option LightingPreset :=
  if morning_condition transitions current_hour then
    some { mode := "morning"
           brightness_pct := max BRIGHTNESS_LOW (py_int ((BRIGHTNESS_HIGH : ℚ) * (3/4)))
           color_temp_kelvin := max COLOR_TEMP_LOW (py_int ((COLOR_TEMP_HIGH : ℚ) * (13/20)))
           idle_timeout_sec := (Int.fdiv idle_timeout_day 2) * 60
           light_entity := light_entity }
  else if day_condition transitions current_hour then
    some { mode := "day"
           brightness_pct := BRIGHTNESS_HIGH
           color_temp_kelvin := COLOR_TEMP_HIGH
           idle_timeout_sec := idle_timeout_day * 60
           light_entity := light_entity }
  else if evening_condition transitions current_hour then
    some { mode := "evening"
           brightness_pct := max BRIGHTNESS_LOW (py_int ((BRIGHTNESS_HIGH : ℚ) * (7/10)))
           color_temp_kelvin := max COLOR_TEMP_LOW (py_int ((COLOR_TEMP_HIGH : ℚ) * (13/20)))
           idle_timeout_sec := idle_timeout_evening * 60
           light_entity := light_entity }
  else if twilight_condition transitions current_hour then
    some { mode := "twilight"
           brightness_pct := max BRIGHTNESS_LOW (py_int ((BRIGHTNESS_HIGH : ℚ) * (3/5)))
           color_temp_kelvin := max COLOR_TEMP_LOW (py_int ((COLOR_TEMP_HIGH : ℚ) * (11/20)))
           idle_timeout_sec := (Int.fdiv idle_timeout_evening 2) * 60
           light_entity := light_entity }
  else if night_condition transitions current_hour then
    some { mode := "night"
           brightness_pct :=
             match nightlight_brightness_pct with
             | some v => if v ≠ 0 then v else BRIGHTNESS_LOW
             | none => BRIGHTNESS_LOW
           color_temp_kelvin := COLOR_TEMP_LOW
           idle_timeout_sec := idle_timeout_night * 60
           light_entity :=
             match nightlight_entity with
             | some e => if e ≠ "" then e else light_entity
             | none => light_entity }
  else none

/-- From smart_light_controller.py, `calculate_settings_by_time`: computes the
canonical dynamic transitions and dispatches on the five time-mode
conditions. -/
def calculate_settings_by_time
    (BRIGHTNESS_LOW BRIGHTNESS_HIGH COLOR_TEMP_LOW COLOR_TEMP_HIGH : ℤ)
    (MIN_DAYLIGHT MAX_DAYLIGHT : ℚ)
    (light_entity : String) (current_hour local_sunrise local_sunset : ℚ)
    (idle_timeout_day idle_timeout_evening idle_timeout_night : ℤ)
    (nightlight_brightness_pct : Option ℤ) (nightlight_entity : Option String) :
    Option LightingPreset :=
  settings_from_transitions BRIGHTNESS_LOW BRIGHTNESS_HIGH COLOR_TEMP_LOW COLOR_TEMP_HIGH
    light_entity (get_dynamic_transitions MIN_DAYLIGHT MAX_DAYLIGHT local_sunrise local_sunset)
    current_hour idle_timeout_day idle_timeout_evening idle_timeout_night
    nightlight_brightness_pct nightlight_entity

/-- From explore_light_settings.py, `calculate_settings_by_time`: same
dispatch table over the "explore" variant of the transitions. -/
def calculate_settings_by_time_explore
    (BRIGHTNESS_LOW BRIGHTNESS_HIGH COLOR_TEMP_LOW COLOR_TEMP_HIGH : ℤ)
    (MIN_DAYLIGHT MAX_DAYLIGHT : ℚ)
    (light_entity : String) (current_hour local_sunrise local_sunset : ℚ)
    (idle_timeout_day idle_timeout_evening idle_timeout_night : ℤ)
    (nightlight_brightness_pct : Option ℤ) (nightlight_entity : Option String) :
    Option LightingPreset :=
  settings_from_transitions BRIGHTNESS_LOW BRIGHTNESS_HIGH COLOR_TEMP_LOW COLOR_TEMP_HIGH
    light_entity
    (get_dynamic_transitions_explore MIN_DAYLIGHT MAX_DAYLIGHT local_sunrise local_sunset)
    current_hour idle_timeout_day idle_timeout_evening idle_timeout_night
    nightlight_brightness_pct nightlight_entity

/-- The mode selected by the first-matching-condition loop, in the dict
insertion order morning, day, evening, twilight, night. -/
def classify_mode (transitions : SegmentBoundaries) (current_hour : ℚ) : Option String :=
  if morning_condition transitions current_hour then some "morning"
  else if day_condition transitions current_hour then some "day"
  else if evening_condition transitions current_hour then some "evening"
  else if twilight_condition transitions current_hour then some "twilight"
  else if night_condition transitions current_hour then some "night"
  else none

/-- Well-formed boundary chain, as stated in the spec's testable properties:
`0 ≤ morning_start < morning_end = day_start < day_end = evening_start <
evening_end = twilight_start < twilight_end ≤ 24`. -/
def WellFormedBoundaries (t : SegmentBoundaries) : Prop :=
  0 ≤ t.morning_start ∧ t.morning_start < t.morning_end ∧ t.morning_end = t.day_start ∧
    t.day_start < t.day_end ∧ t.day_end = t.evening_start ∧
    t.evening_start < t.evening_end ∧ t.evening_end = t.twilight_start ∧
    t.twilight_start < t.twilight_end ∧ t.twilight_end ≤ 24

instance (t : SegmentBoundaries) : Decidable (WellFormedBoundaries t) :=
  inferInstanceAs (Decidable (_ ∧ _))

/-- The strict-and-equal ordering chain over the eight boundary markers
(without the `[0, 24]` range constraints). -/
def OrderedChain (t : SegmentBoundaries) : Prop :=
  t.morning_start < t.morning_end ∧ t.morning_end = t.day_start ∧
    t.day_start < t.day_end ∧ t.day_end = t.evening_start ∧
    t.evening_start < t.evening_end ∧ t.evening_end = t.twilight_start ∧
    t.twilight_start < t.twilight_end

instance (t : SegmentBoundaries) : Decidable (OrderedChain t) :=
  inferInstanceAs (Decidable (_ ∧ _))

/-- Number of the five segment conditions satisfied at `current_hour`. -/
def matching_mode_count (transitions : SegmentBoundaries) (current_hour : ℚ) : ℕ :=
  (if morning_condition transitions current_hour then 1 else 0) +
    (if day_condition transitions current_hour then 1 else 0) +
    (if evening_condition transitions current_hour then 1 else 0) +
    (if twilight_condition transitions current_hour then 1 else 0) +
    (if night_condition transitions current_hour then 1 else 0)

/-- Model of Python `str.split(":")` over a character list: splits on every
colon, keeping empty groups, and never returns an empty list. -/
def split_on_colon (cs : List Char) : List (List Char) :=
  match cs with
  | [] => [[]]
  | c :: rest =>
    let r := split_on_colon rest
    if c = ':' then [] :: r
    else
      match r with
      | [] => [[c]]
      | g :: gs => (c :: g) :: gs

/-- Model of Python `int(s)` on a string (as a character list): strips
surrounding spaces, allows one leading sign, then requires a nonempty run of
decimal digits; any other shape raises `ValueError`, modelled as `none`. -/
def py_int_of_chars (cs : List Char) : Option ℤ :=
  let t := ((cs.dropWhile (fun c => c = ' ')).reverse.dropWhile (fun c => c = ' ')).reverse
  let stripped : Bool × List Char :=
    match t with
    | '-' :: rest => (true, rest)
    | '+' :: rest => (false, rest)
    | _ => (false, t)
  if !stripped.2.isEmpty && stripped.2.all Char.isDigit then
    let n : ℕ := stripped.2.foldl (fun acc c => acc * 10 + (c.toNat - 48)) 0
    some (if stripped.1 then -(n : ℤ) else (n : ℤ))
  else none

/-- From explore_light_settings.py, `convert_stringtime_to_decimaltime`:
`time_split = time_string.split(":")`, `hours = int(time_split[0])`,
`mins = int(time_split[1])`, returns `hours + (mins/60)`.  Python exceptions
(`ValueError` from `int`, `IndexError` from the missing minute field) are
modelled as `Except.error`, raised in the source's evaluation order. -/
def convert_stringtime_to_decimaltime (time_string : String) : Except String ℚ :=
  let time_split := split_on_colon time_string.toList
  match time_split[0]? with
  | none => .error "IndexError: list index out of range"
  | some h_field =>
    match py_int_of_chars h_field with
    | none => .error "ValueError: invalid literal for int with base 10"
    | some hours =>
      match time_split[1]? with
      | none => .error "IndexError: list index out of range"
      | some m_field =>
        match py_int_of_chars m_field with
        | none => .error "ValueError: invalid literal for int with base 10"
        | some mins => .ok ((hours : ℚ) + (mins : ℚ) / 60)

/-! ### Helper lemmas -/

/-- Unfolding equation for `scale_offset`. -/
lemma scale_offset_def (d a b c e : ℚ) :
    scale_offset d a b c e = c + (e - c) * (1 - (max a (min d b) - a) / (b - a)) := rfl

/-- Unfolding equation for `scale_offset_spec`. -/
lemma scale_offset_spec_def (d a b c e : ℚ) :
    scale_offset_spec d a b c e = c + (e - c) * (1 - (min b (max a d) - a) / (b - a)) := rfl

/-- The two ways of clamping a value into `[a, b]` agree when `a ≤ b`. -/
lemma clamp_comm (a b d : ℚ) (hab : a ≤ b) : max a (min d b) = min b (max a d) := by
  rcases le_total d a with h1 | h1
  · rw [min_eq_left (h1.trans hab), max_eq_left h1, min_eq_right hab]
  · rcases le_total d b with h2 | h2
    · rw [min_eq_left h2, max_eq_right h1, min_eq_right h2]
    · rw [min_eq_right h2, max_eq_right hab, max_eq_right (hab.trans h2), min_eq_left h2]

/-- The value of `scale_offset` always lies between `min_offset` and
`max_offset` when the daylight range is nondegenerate and the offsets are
ordered. -/
lemma scale_offset_bounds (d a b c e : ℚ) (hab : a < b) (hce : c ≤ e) :
    c ≤ scale_offset d a b c e ∧ scale_offset d a b c e ≤ e := by
  rw [scale_offset_def]
  have hD : (0 : ℚ) < b - a := sub_pos.2 hab
  have h0 : 0 ≤ (max a (min d b) - a) / (b - a) :=
    div_nonneg (sub_nonneg.2 (le_max_left a _)) hD.le
  have h1 : (max a (min d b) - a) / (b - a) ≤ 1 := by
    rw [div_le_one hD]
    have : max a (min d b) ≤ b := max_le hab.le (min_le_right d b)
    linarith
  constructor <;> nlinarith

/-! ### Claim theorems -/

/-- C3 counterexample: with `min_daylight = 0 < 1 = max_daylight` but the
offsets reversed (`min_offset = 1`, `max_offset = 0`), `scale_offset` is
strictly increasing between `daylight_hours = 0` and `daylight_hours = 1`,
violating the claimed unconditional monotone non-increase. -/
theorem C3_monotone_counterexample :
    (0 : ℚ) < 1 ∧ (0 : ℚ) ≤ 1 ∧ scale_offset 0 0 1 1 0 < scale_offset 1 0 1 1 0 := by
  norm_num [scale_offset]

/-- C3 (amended): for `min_daylight < max_daylight`, `scale_offset` equals
`max_offset` on `daylight_hours ≤ min_daylight`, equals `min_offset` on
`daylight_hours ≥ max_daylight`, and — provided additionally
`min_offset ≤ max_offset` — is monotonically non-increasing in
`daylight_hours`. -/
theorem C3_scale_offset_clamp_monotone (min_daylight max_daylight min_dst max_dst : ℚ)
    (hlt : min_daylight < max_daylight) :
    (∀ d, d ≤ min_daylight →
        scale_offset d min_daylight max_daylight min_dst max_dst = max_dst) ∧
      (∀ d, max_daylight ≤ d →
        scale_offset d min_daylight max_daylight min_dst max_dst = min_dst) ∧
      (min_dst ≤ max_dst → ∀ d1 d2, d1 ≤ d2 →
        scale_offset d2 min_daylight max_daylight min_dst max_dst ≤
          scale_offset d1 min_daylight max_daylight min_dst max_dst) := by
  have hD : (0 : ℚ) < max_daylight - min_daylight := sub_pos.2 hlt
  refine ⟨?_, ?_, ?_⟩
  · intro d hd
    have hmax : max min_daylight (min d max_daylight) = min_daylight := by
      rw [min_eq_left (hd.trans hlt.le)]
      exact max_eq_left hd
    rw [scale_offset_def, hmax, sub_self, zero_div]
    ring
  · intro d hd
    have hmax : max min_daylight (min d max_daylight) = max_daylight := by
      rw [min_eq_right hd]
      exact max_eq_right hlt.le
    rw [scale_offset_def, hmax, div_self (ne_of_gt hD)]
    ring
  · intro hmo d1 d2 hd
    rw [scale_offset_def, scale_offset_def]
    set r1 := (max min_daylight (min d1 max_daylight) - min_daylight) /
      (max_daylight - min_daylight) with hr1def
    set r2 := (max min_daylight (min d2 max_daylight) - min_daylight) /
      (max_daylight - min_daylight) with hr2def
    have hc : max min_daylight (min d1 max_daylight) ≤ max min_daylight (min d2 max_daylight) :=
      max_le_max le_rfl (min_le_min hd le_rfl)
    have hr : r1 ≤ r2 := by
      rw [hr1def, hr2def]
      exact (div_le_div_iff_of_pos_right hD).2 (sub_le_sub_right hc _)
    have key : min_dst + (max_dst - min_dst) * (1 - r1) -
        (min_dst + (max_dst - min_dst) * (1 - r2)) = (max_dst - min_dst) * (r2 - r1) := by
      ring
    linarith [mul_nonneg (sub_nonneg.2 hmo) (sub_nonneg.2 hr)]

/-- C3 witness at the default controller parameters. -/
theorem C3_scale_offset_clamp_monotone_witness :
    scale_offset 8 9 14 (3/10) 2 = 2 ∧ scale_offset 15 9 14 (3/10) 2 = 3/10 ∧
      scale_offset 13 9 14 (3/10) 2 ≤ scale_offset 10 9 14 (3/10) 2 :=
  ⟨(C3_scale_offset_clamp_monotone 9 14 (3/10) 2 (by norm_num)).1 8 (by norm_num),
    (C3_scale_offset_clamp_monotone 9 14 (3/10) 2 (by norm_num)).2.1 15 (by norm_num),
    (C3_scale_offset_clamp_monotone 9 14 (3/10) 2 (by norm_num)).2.2 (by norm_num) 10 13
      (by norm_num)⟩

/-- C6: under the precondition `min_daylight < max_daylight`, the source
`scale_offset` coincides with the spec-described clamp/ratio/interpolate
formula, and the divisor `max_daylight - min_daylight` is nonzero. -/
theorem C6_scale_offset_refines_spec (d min_daylight max_daylight min_dst max_dst : ℚ)
    (hlt : min_daylight < max_daylight) :
    scale_offset d min_daylight max_daylight min_dst max_dst =
        scale_offset_spec d min_daylight max_daylight min_dst max_dst ∧
      max_daylight - min_daylight ≠ 0 := by
  constructor
  · rw [scale_offset_def, scale_offset_spec_def, clamp_comm _ _ _ hlt.le]
  · exact sub_ne_zero.2 hlt.ne'

/-- C6 witness at the default parameters. -/
theorem C6_scale_offset_refines_spec_witness :
    scale_offset 10 9 14 (3/10) 2 = scale_offset_spec 10 9 14 (3/10) 2 ∧
      (14 : ℚ) - 9 ≠ 0 :=
  C6_scale_offset_refines_spec 10 9 14 (3/10) 2 (by norm_num)

/-- C7: the canonical `get_dynamic_transitions` always satisfies the
structural identities `day_start = morning_end`,
`day_end = evening_start = sunset`, `evening_end = sunset + evening_offset`,
`twilight_start = evening_end`, and
`twilight_end = evening_end + twilight_offset`, where the offsets are
`scale_offset` at the configured evening (`.5 .. 2.0`) and twilight
(`.3 .. 1.0`) ranges. -/
theorem C7_structural_identities (MIN_DAYLIGHT MAX_DAYLIGHT local_sunrise local_sunset : ℚ) :
    (get_dynamic_transitions MIN_DAYLIGHT MAX_DAYLIGHT local_sunrise local_sunset).day_start =
        (get_dynamic_transitions MIN_DAYLIGHT MAX_DAYLIGHT local_sunrise
          local_sunset).morning_end ∧
      (get_dynamic_transitions MIN_DAYLIGHT MAX_DAYLIGHT local_sunrise local_sunset).day_end =
        (get_dynamic_transitions MIN_DAYLIGHT MAX_DAYLIGHT local_sunrise
          local_sunset).evening_start ∧
      (get_dynamic_transitions MIN_DAYLIGHT MAX_DAYLIGHT local_sunrise
          local_sunset).evening_start = local_sunset ∧
      (get_dynamic_transitions MIN_DAYLIGHT MAX_DAYLIGHT local_sunrise
          local_sunset).evening_end =
        local_sunset +
          scale_offset (local_sunset - local_sunrise) MIN_DAYLIGHT MAX_DAYLIGHT (1/2) 2 ∧
      (get_dynamic_transitions MIN_DAYLIGHT MAX_DAYLIGHT local_sunrise
          local_sunset).twilight_start =
        (get_dynamic_transitions MIN_DAYLIGHT MAX_DAYLIGHT local_sunrise
          local_sunset).evening_end ∧
      (get_dynamic_transitions MIN_DAYLIGHT MAX_DAYLIGHT local_sunrise
          local_sunset).twilight_end =
        (get_dynamic_transitions MIN_DAYLIGHT MAX_DAYLIGHT local_sunrise
            local_sunset).evening_end +
          scale_offset (local_sunset - local_sunrise) MIN_DAYLIGHT MAX_DAYLIGHT (3/10) 1 :=
  ⟨rfl, rfl, rfl, rfl, rfl, rfl⟩

/-- C4: for sunrise/sunset with daylight in the tuned operating range
`[9, 14]` (and the default `MIN_DAYLIGHT = 9`, `MAX_DAYLIGHT = 14`), the
boundaries returned by the canonical `get_dynamic_transitions` satisfy
`morning_start < morning_end = day_start < day_end = evening_start <
evening_end = twilight_start < twilight_end`. -/
theorem C4_boundary_chain (local_sunrise local_sunset : ℚ)
    (h9 : 9 ≤ local_sunset - local_sunrise) (h14 : local_sunset - local_sunrise ≤ 14) :
    OrderedChain (get_dynamic_transitions 9 14 local_sunrise local_sunset) := by
  have he := (scale_offset_bounds (local_sunset - local_sunrise) 9 14 (1/2) 2 (by norm_num)
    (by norm_num)).1
  have ht := (scale_offset_bounds (local_sunset - local_sunrise) 9 14 (3/10) 1 (by norm_num)
    (by norm_num)).1
  refine ⟨?_, rfl, ?_, rfl, ?_, rfl, ?_⟩
  · show local_sunrise - 1 < local_sunrise + 2
    linarith
  · show local_sunrise + 2 < local_sunset
    linarith
  · show local_sunset <
      local_sunset + scale_offset (local_sunset - local_sunrise) 9 14 (1/2) 2
    linarith
  · show local_sunset + scale_offset (local_sunset - local_sunrise) 9 14 (1/2) 2 <
      local_sunset + scale_offset (local_sunset - local_sunrise) 9 14 (1/2) 2 +
        scale_offset (local_sunset - local_sunrise) 9 14 (3/10) 1
    linarith

/-- C4 witness at sunrise 7, sunset 18 (11 daylight hours). -/
theorem C4_boundary_chain_witness : OrderedChain (get_dynamic_transitions 9 14 7 18) :=
  C4_boundary_chain 7 18 (by norm_num) (by norm_num)

/-- C2: for a well-formed boundary chain and any hour in `[0, 24)`, exactly
one of the five segment conditions of `calculate_settings_by_time` holds. -/
theorem C2_exactly_one_segment (t : SegmentBoundaries) (current_hour : ℚ)
    (hwf : WellFormedBoundaries t) (h0 : 0 ≤ current_hour) (h24 : current_hour < 24) :
    matching_mode_count t current_hour = 1 := by
  obtain ⟨w0, w1, w2, w3, w4, w5, w6, w7, w8⟩ := hwf
  simp only [matching_mode_count, morning_condition, day_condition, evening_condition,
    twilight_condition, night_condition]
  rcases lt_or_le current_hour t.morning_start with c | c
  · rw [if_neg (fun hc => by have := hc.1; linarith),
      if_neg (fun hc => by have := hc.1; linarith),
      if_neg (fun hc => by have := hc.1; linarith),
      if_neg (fun hc => by have := hc.1; linarith),
      if_pos (Or.inr ⟨h0, c⟩)]
  · rcases lt_or_le current_hour t.morning_end with c2 | c2
    · rw [if_pos ⟨c, c2⟩,
        if_neg (fun hc => by have := hc.1; linarith),
        if_neg (fun hc => by have := hc.1; linarith),
        if_neg (fun hc => by have := hc.1; linarith),
        if_neg (fun hc => by rcases hc with ⟨a, b⟩ | ⟨a, b⟩ <;> linarith)]
    · rcases lt_or_le current_hour t.day_end with c3 | c3
      · rw [if_neg (fun hc => by have := hc.2; linarith),
          if_pos ⟨by linarith, c3⟩,
          if_neg (fun hc => by have := hc.1; linarith),
          if_neg (fun hc => by have := hc.1; linarith),
          if_neg (fun hc => by rcases hc with ⟨a, b⟩ | ⟨a, b⟩ <;> linarith)]
      · rcases lt_or_le current_hour t.evening_end with c4 | c4
        · rw [if_neg (fun hc => by have := hc.2; linarith),
            if_neg (fun hc => by have := hc.2; linarith),
            if_pos ⟨by linarith, c4⟩,
            if_neg (fun hc => by have := hc.1; linarith),
            if_neg (fun hc => by rcases hc with ⟨a, b⟩ | ⟨a, b⟩ <;> linarith)]
        · rcases lt_or_le current_hour t.twilight_end with c5 | c5
          · rw [if_neg (fun hc => by have := hc.2; linarith),
              if_neg (fun hc => by have := hc.2; linarith),
              if_neg (fun hc => by have := hc.2; linarith),
              if_pos ⟨by linarith, c5⟩,
              if_neg (fun hc => by rcases hc with ⟨a, b⟩ | ⟨a, b⟩ <;> linarith)]
          · rw [if_neg (fun hc => by have := hc.2; linarith),
              if_neg (fun hc => by have := hc.2; linarith),
              if_neg (fun hc => by have := hc.2; linarith),
              if_neg (fun hc => by have := hc.2; linarith),
              if_pos (Or.inl ⟨c5, h24⟩)]

/-- C2 witness on a concrete well-formed boundary record. -/
theorem C2_exactly_one_segment_witness :
    matching_mode_count
      { morning_start := 1, morning_end := 2, day_start := 2, day_end := 3,
        evening_start := 3, evening_end := 4, twilight_start := 4, twilight_end := 5 }
      0 = 1 :=
  C2_exactly_one_segment _ 0 (by decide) (by norm_num) (by norm_num)

/-- C5: the four named segment conditions are the half-open intervals
`[start, end)`; within `[0, 24)` the night condition is the complement
`(current_hour ≥ twilight_end) ∨ (current_hour < morning_start)`; the
classification tries morning, day, evening, twilight, night in that fixed
priority order and returns the first match; and for a well-formed boundary
chain the hour exactly equal to `morning_end` is classified `"day"`. -/
theorem C5_priority_and_halfopen (t : SegmentBoundaries) (current_hour : ℚ)
    (hwf : WellFormedBoundaries t) (h0 : 0 ≤ current_hour) (h24 : current_hour < 24) :
    (morning_condition t current_hour ↔
        t.morning_start ≤ current_hour ∧ current_hour < t.morning_end) ∧
      (day_condition t current_hour ↔
        t.day_start ≤ current_hour ∧ current_hour < t.day_end) ∧
      (evening_condition t current_hour ↔
        t.evening_start ≤ current_hour ∧ current_hour < t.evening_end) ∧
      (twilight_condition t current_hour ↔
        t.twilight_start ≤ current_hour ∧ current_hour < t.twilight_end) ∧
      (night_condition t current_hour ↔
        (t.twilight_end ≤ current_hour ∨ current_hour < t.morning_start)) ∧
      (morning_condition t current_hour → classify_mode t current_hour = some "morning") ∧
      (¬ morning_condition t current_hour → day_condition t current_hour →
        classify_mode t current_hour = some "day") ∧
      (¬ morning_condition t current_hour → ¬ day_condition t current_hour →
        evening_condition t current_hour → classify_mode t current_hour = some "evening") ∧
      (¬ morning_condition t current_hour → ¬ day_condition t current_hour →
        ¬ evening_condition t current_hour → twilight_condition t current_hour →
        classify_mode t current_hour = some "twilight") ∧
      (¬ morning_condition t current_hour → ¬ day_condition t current_hour →
        ¬ evening_condition t current_hour → ¬ twilight_condition t current_hour →
        night_condition t current_hour → classify_mode t current_hour = some "night") ∧
      classify_mode t t.morning_end = some "day" := by
  obtain ⟨w0, w1, w2, w3, w4, w5, w6, w7, w8⟩ := hwf
  refine ⟨Iff.rfl, Iff.rfl, Iff.rfl, Iff.rfl, ?_, ?_, ?_, ?_, ?_, ?_, ?_⟩
  · unfold night_condition
    constructor
    · rintro (⟨a, _⟩ | ⟨_, b⟩)
      · exact Or.inl a
      · exact Or.inr b
    · rintro (a | a)
      · exact Or.inl ⟨a, h24⟩
      · exact Or.inr ⟨h0, a⟩
  · intro hm
    unfold classify_mode
    rw [if_pos hm]
  · intro hm hd
    unfold classify_mode
    rw [if_neg hm, if_pos hd]
  · intro hm hd he
    unfold classify_mode
    rw [if_neg hm, if_neg hd, if_pos he]
  · intro hm hd he htw
    unfold classify_mode
    rw [if_neg hm, if_neg hd, if_neg he, if_pos htw]
  · intro hm hd he htw hn
    unfold classify_mode
    rw [if_neg hm, if_neg hd, if_neg he, if_neg htw, if_pos hn]
  · unfold classify_mode
    rw [if_neg (fun hc : morning_condition t t.morning_end => absurd hc.2 (lt_irrefl _)),
      if_pos (show day_condition t t.morning_end from ⟨w2.ge, w2.trans_lt w3⟩)]

/-- C5 witness: on a concrete well-formed boundary record, the hour equal to
`morning_end` is classified `"day"`. -/
theorem C5_priority_and_halfopen_witness :
    classify_mode
      { morning_start := 1, morning_end := 2, day_start := 2, day_end := 3,
        evening_start := 3, evening_end := 4, twilight_start := 4, twilight_end := 5 }
      2 = some "day" :=
  (C5_priority_and_halfopen _ 0 (by decide) (by norm_num)
    (by norm_num)).2.2.2.2.2.2.2.2.2.2

/-- The three structural junction identities make the five conditions cover
every hour of `[0, 24)`. -/
lemma conditions_cover (t : SegmentBoundaries) (h : ℚ)
    (e1 : t.day_start = t.morning_end) (e2 : t.evening_start = t.day_end)
    (e3 : t.twilight_start = t.evening_end) (h0 : 0 ≤ h) (h24 : h < 24) :
    morning_condition t h ∨ day_condition t h ∨ evening_condition t h ∨
      twilight_condition t h ∨ night_condition t h := by
  by_cases hn : night_condition t h
  · exact Or.inr (Or.inr (Or.inr (Or.inr hn)))
  have hn' := hn
  unfold night_condition at hn'
  push_neg at hn'
  have hms : t.morning_start ≤ h := hn'.2 h0
  have hte : h < t.twilight_end := by
    by_contra hc
    push_neg at hc
    exact absurd (hn'.1 hc) (not_le.2 h24)
  by_cases hm : morning_condition t h
  · exact Or.inl hm
  by_cases hd : day_condition t h
  · exact Or.inr (Or.inl hd)
  by_cases he : evening_condition t h
  · exact Or.inr (Or.inr (Or.inl he))
  unfold morning_condition at hm
  unfold day_condition at hd
  unfold evening_condition at he
  push_neg at hm hd he
  have h1 : t.morning_end ≤ h := hm hms
  have h2 : t.day_end ≤ h := hd (e1.trans_le h1)
  have h3 : t.evening_end ≤ h := he (e2.trans_le h2)
  exact Or.inr (Or.inr (Or.inr (Or.inl ⟨e3.trans_le h3, hte⟩)))

/-- C10: for any hour in `[0, 24)` and arbitrary (possibly reversed or
degenerate) sunrise/sunset, given `MIN_DAYLIGHT < MAX_DAYLIGHT`,
`calculate_settings_by_time` always returns a preset record: the implicit
no-match fall-through is unreachable. -/
theorem C10_always_returns_preset (BL BH CL CH : ℤ) (MIN_DAYLIGHT MAX_DAYLIGHT : ℚ)
    (ent : String) (current_hour local_sunrise local_sunset : ℚ)
    (it_day it_evening it_night : ℤ) (nbp : Option ℤ) (nent : Option String)
    (hdc : MIN_DAYLIGHT < MAX_DAYLIGHT) (h0 : 0 ≤ current_hour) (h24 : current_hour < 24) :
    (calculate_settings_by_time BL BH CL CH MIN_DAYLIGHT MAX_DAYLIGHT ent current_hour
      local_sunrise local_sunset it_day it_evening it_night nbp nent).isSome = true := by
  have hcov := conditions_cover
    (get_dynamic_transitions MIN_DAYLIGHT MAX_DAYLIGHT local_sunrise local_sunset)
    current_hour rfl rfl rfl h0 h24
  unfold calculate_settings_by_time settings_from_transitions
  by_cases h1 : morning_condition
      (get_dynamic_transitions MIN_DAYLIGHT MAX_DAYLIGHT local_sunrise local_sunset)
      current_hour
  · rw [if_pos h1]
    rfl
  rw [if_neg h1]
  by_cases h2 : day_condition
      (get_dynamic_transitions MIN_DAYLIGHT MAX_DAYLIGHT local_sunrise local_sunset)
      current_hour
  · rw [if_pos h2]
    rfl
  rw [if_neg h2]
  by_cases h3 : evening_condition
      (get_dynamic_transitions MIN_DAYLIGHT MAX_DAYLIGHT local_sunrise local_sunset)
      current_hour
  · rw [if_pos h3]
    rfl
  rw [if_neg h3]
  by_cases h4 : twilight_condition
      (get_dynamic_transitions MIN_DAYLIGHT MAX_DAYLIGHT local_sunrise local_sunset)
      current_hour
  · rw [if_pos h4]
    rfl
  rw [if_neg h4]
  by_cases h5 : night_condition
      (get_dynamic_transitions MIN_DAYLIGHT MAX_DAYLIGHT local_sunrise local_sunset)
      current_hour
  · rw [if_pos h5]
    rfl
  rcases hcov with hc | hc | hc | hc | hc
  · exact absurd hc h1
  · exact absurd hc h2
  · exact absurd hc h3
  · exact absurd hc h4
  · exact absurd hc h5

/-- C10 witness at a concrete configuration and hour. -/
theorem C10_always_returns_preset_witness :
    (calculate_settings_by_time 20 100 2000 4500 9 14 "light" 12 7 18 10 15 2 none
      none).isSome = true :=
  C10_always_returns_preset 20 100 2000 4500 9 14 "light" 12 7 18 10 15 2 none none
    (by norm_num) (by norm_num) (by norm_num)

/-- Truncation of `90 * 0.75 = 67.5` by `int()`. -/
lemma py_int_ninety_threequarters : py_int ((((90 : ℤ) : ℚ)) * (3/4)) = 67 := by
  have h1 : ((((90 : ℤ) : ℚ)) * (3/4)) = 135/2 := by norm_num
  unfold py_int
  rw [h1, if_neg (by norm_num)]
  rw [Int.floor_eq_iff]
  constructor <;> norm_num

/-- Truncation of `4500 * 0.65 = 2925` by `int()`. -/
lemma py_int_color_morning : py_int ((((4500 : ℤ) : ℚ)) * (13/20)) = 2925 := by
  have h1 : ((((4500 : ℤ) : ℚ)) * (13/20)) = 2925 := by norm_num
  unfold py_int
  rw [h1, if_neg (by norm_num)]
  rw [Int.floor_eq_iff]
  constructor <;> norm_num

/-- Concrete morning-segment evaluation with `brightness_high = 90`. -/
lemma calculate_morning_example :
    calculate_settings_by_time 20 90 2000 4500 9 14 "light" 7 6 18 10 15 2 none none =
      some { mode := "morning", brightness_pct := 67, color_temp_kelvin := 2925,
             idle_timeout_sec := 300, light_entity := "light" } := by
  have hm : morning_condition (get_dynamic_transitions 9 14 6 18) 7 :=
    ⟨by norm_num [get_dynamic_transitions], by norm_num [get_dynamic_transitions]⟩
  unfold calculate_settings_by_time settings_from_transitions
  rw [if_pos hm, py_int_ninety_threequarters, py_int_color_morning]
  decide

/-- C1 counterexample: at `brightness_high = 90` the morning preset's
brightness is `int(90 * 0.75) = 67`, not the claimed
`round(90 * 0.75) = 68`. -/
theorem C1_round_counterexample :
    (calculate_settings_by_time 20 90 2000 4500 9 14 "light" 7 6 18 10 15 2 none
        none).map LightingPreset.brightness_pct = some 67 ∧
      max (20 : ℤ) (round ((90 : ℚ) * (3/4))) = 68 := by
  constructor
  · rw [calculate_morning_example]
    rfl
  · have h1 : ((90 : ℚ) * (3/4)) = 135/2 := by norm_num
    rw [h1, round_eq]
    have h2 : (135 : ℚ)/2 + 1/2 = 68 := by norm_num
    rw [h2]
    have h3 : ⌊(68 : ℚ)⌋ = 68 := Int.floor_eq_iff.mpr (by norm_num)
    rw [h3]
    decide

/-- C1 (amended): for every selected segment among morning, day, evening and
twilight, the preset has `brightness_pct = max(brightness_low,
int(brightness_high * fraction))` where `int` truncates (not rounds), with the
day segment returning `brightness_high` directly (fraction 1, no flooring
against the minimum); `color_temp_kelvin` analogously; and
`idle_timeout_sec` equal to the segment's idle-timeout minutes times 60. -/
theorem C1_preset_formulas (BL BH CL CH : ℤ) (MIN_DAYLIGHT MAX_DAYLIGHT : ℚ) (ent : String)
    (current_hour local_sunrise local_sunset : ℚ) (it_day it_evening it_night : ℤ)
    (nbp : Option ℤ) (nent : Option String) (p : LightingPreset)
    (hp : calculate_settings_by_time BL BH CL CH MIN_DAYLIGHT MAX_DAYLIGHT ent current_hour
      local_sunrise local_sunset it_day it_evening it_night nbp nent = some p) :
    (p.mode = "morning" →
        p.brightness_pct = max BL (py_int ((BH : ℚ) * (3/4))) ∧
          p.color_temp_kelvin = max CL (py_int ((CH : ℚ) * (13/20))) ∧
          p.idle_timeout_sec = Int.fdiv it_day 2 * 60) ∧
      (p.mode = "day" →
        p.brightness_pct = BH ∧ p.color_temp_kelvin = CH ∧
          p.idle_timeout_sec = it_day * 60) ∧
      (p.mode = "evening" →
        p.brightness_pct = max BL (py_int ((BH : ℚ) * (7/10))) ∧
          p.color_temp_kelvin = max CL (py_int ((CH : ℚ) * (13/20))) ∧
          p.idle_timeout_sec = it_evening * 60) ∧
      (p.mode = "twilight" →
        p.brightness_pct = max BL (py_int ((BH : ℚ) * (3/5))) ∧
          p.color_temp_kelvin = max CL (py_int ((CH : ℚ) * (11/20))) ∧
          p.idle_timeout_sec = Int.fdiv it_evening 2 * 60) := by
  unfold calculate_settings_by_time settings_from_transitions at hp
  split at hp
  · obtain rfl := Option.some.inj hp
    refine ⟨fun _ => ⟨rfl, rfl, rfl⟩, fun hx => ?_, fun hx => ?_, fun hx => ?_⟩ <;> simp at hx
  · split at hp
    · obtain rfl := Option.some.inj hp
      refine ⟨fun hx => ?_, fun _ => ⟨rfl, rfl, rfl⟩, fun hx => ?_, fun hx => ?_⟩ <;>
        simp at hx
    · split at hp
      · obtain rfl := Option.some.inj hp
        refine ⟨fun hx => ?_, fun hx => ?_, fun _ => ⟨rfl, rfl, rfl⟩, fun hx => ?_⟩ <;>
          simp at hx
      · split at hp
        · obtain rfl := Option.some.inj hp
          refine ⟨fun hx => ?_, fun hx => ?_, fun hx => ?_, fun _ => ⟨rfl, rfl, rfl⟩⟩ <;>
            simp at hx
        · split at hp
          · obtain rfl := Option.some.inj hp
            refine ⟨fun hx => ?_, fun hx => ?_, fun hx => ?_, fun hx => ?_⟩ <;> simp at hx
          · exact Option.noConfusion hp

/-- C1 witness: the amended formulas instantiated at the concrete morning
example. -/
theorem C1_preset_formulas_witness :
    ((("morning" : String) = "morning" →
        (67 : ℤ) = max 20 (py_int ((90 : ℚ) * (3/4))) ∧
          (2925 : ℤ) = max 2000 (py_int ((4500 : ℚ) * (13/20))) ∧
          (300 : ℤ) = Int.fdiv 10 2 * 60) ∧
      (("morning" : String) = "day" →
        (67 : ℤ) = 90 ∧ (2925 : ℤ) = 4500 ∧ (300 : ℤ) = 10 * 60) ∧
      (("morning" : String) = "evening" →
        (67 : ℤ) = max 20 (py_int ((90 : ℚ) * (7/10))) ∧
          (2925 : ℤ) = max 2000 (py_int ((4500 : ℚ) * (13/20))) ∧
          (300 : ℤ) = 15 * 60) ∧
      (("morning" : String) = "twilight" →
        (67 : ℤ) = max 20 (py_int ((90 : ℚ) * (3/5))) ∧
          (2925 : ℤ) = max 2000 (py_int ((4500 : ℚ) * (11/20))) ∧
          (300 : ℤ) = Int.fdiv 15 2 * 60)) :=
  C1_preset_formulas 20 90 2000 4500 9 14 "light" 7 6 18 10 15 2 none none
    { mode := "morning", brightness_pct := 67, color_temp_kelvin := 2925,
      idle_timeout_sec := 300, light_entity := "light" }
    calculate_morning_example

/-- C8: at `sunrise = 7.25`, `sunset = 19.2` with default style parameters,
the explore-variant boundaries satisfy `day_start = morning_end` and
`day_end = 19.2`; `current_hour = 13.5` is classified `"day"` with
`brightness_pct = 100` and `color_temp_kelvin = 4500`; `current_hour = 2.0`
is classified `"night"`.  The same holds for the canonical controller
variant, whose `morning_start` is exactly `6.25`. -/
theorem C8_concrete_examples :
    (get_dynamic_transitions_explore 9 14 (29/4) (96/5)).day_start =
        (get_dynamic_transitions_explore 9 14 (29/4) (96/5)).morning_end ∧
      (get_dynamic_transitions_explore 9 14 (29/4) (96/5)).day_end = 96/5 ∧
      calculate_settings_by_time_explore 35 100 2000 4500 9 14 "light" (27/2) (29/4) (96/5)
          5 7 2 (some 10) (some "nightlight") =
        some { mode := "day", brightness_pct := 100, color_temp_kelvin := 4500,
               idle_timeout_sec := 300, light_entity := "light" } ∧
      (calculate_settings_by_time_explore 35 100 2000 4500 9 14 "light" 2 (29/4) (96/5)
          5 7 2 (some 10) (some "nightlight")).map LightingPreset.mode = some "night" ∧
      (get_dynamic_transitions 9 14 (29/4) (96/5)).morning_start = 25/4 ∧
      calculate_settings_by_time 20 100 2000 4500 9 14 "light" (27/2) (29/4) (96/5)
          10 15 2 none none =
        some { mode := "day", brightness_pct := 100, color_temp_kelvin := 4500,
               idle_timeout_sec := 600, light_entity := "light" } ∧
      (calculate_settings_by_time 20 100 2000 4500 9 14 "light" 2 (29/4) (96/5)
          10 15 2 none none).map LightingPreset.mode = some "night" := by
  refine ⟨rfl, ?_, ?_, ?_, ?_, ?_, ?_⟩
  · norm_num [get_dynamic_transitions_explore, scale_offset]
  · norm_num [calculate_settings_by_time_explore, settings_from_transitions,
      get_dynamic_transitions_explore, scale_offset, morning_condition, day_condition,
      evening_condition, twilight_condition, night_condition, min_def, max_def]
  · norm_num [calculate_settings_by_time_explore, settings_from_transitions,
      get_dynamic_transitions_explore, scale_offset, morning_condition, day_condition,
      evening_condition, twilight_condition, night_condition, min_def, max_def]
  · norm_num [get_dynamic_transitions]
  · norm_num [calculate_settings_by_time, settings_from_transitions,
      get_dynamic_transitions, scale_offset, morning_condition, day_condition,
      evening_condition, twilight_condition, night_condition, min_def, max_def]
  · norm_num [calculate_settings_by_time, settings_from_transitions,
      get_dynamic_transitions, scale_offset, morning_condition, day_condition,
      evening_condition, twilight_condition, night_condition, min_def, max_def]

/-- C9: a colon-split string whose first two fields parse as integers
converts to `hours + minutes/60`; a missing minute field or a non-numeric
hour or minute field makes the conversion return an error (never a silent
numeric value). -/
theorem C9_time_parsing :
    (∀ (s : String) (h_field m_field : List Char) (rest : List (List Char)) (hv mv : ℤ),
        split_on_colon s.toList = h_field :: m_field :: rest →
        py_int_of_chars h_field = some hv →
        py_int_of_chars m_field = some mv →
        convert_stringtime_to_decimaltime s = Except.ok ((hv : ℚ) + (mv : ℚ) / 60)) ∧
      (∀ (s : String) (h_field : List Char),
        split_on_colon s.toList = [h_field] →
        ∃ msg, convert_stringtime_to_decimaltime s = Except.error msg) ∧
      (∀ (s : String) (h_field : List Char) (rest2 : List (List Char)),
        split_on_colon s.toList = h_field :: rest2 →
        py_int_of_chars h_field = none →
        ∃ msg, convert_stringtime_to_decimaltime s = Except.error msg) ∧
      (∀ (s : String) (h_field m_field : List Char) (rest : List (List Char)) (hv : ℤ),
        split_on_colon s.toList = h_field :: m_field :: rest →
        py_int_of_chars h_field = some hv →
        py_int_of_chars m_field = none →
        ∃ msg, convert_stringtime_to_decimaltime s = Except.error msg) := by
  refine ⟨?_, ?_, ?_, ?_⟩
  · intro s h_field m_field rest hv mv hsplit hh hm
    simp only [String.toList] at hsplit
    simp [convert_stringtime_to_decimaltime, hsplit, hh, hm]
  · intro s h_field hsplit
    simp only [String.toList] at hsplit
    rcases hpy : py_int_of_chars h_field with _ | v
    · refine ⟨"ValueError: invalid literal for int with base 10", ?_⟩
      simp [convert_stringtime_to_decimaltime, hsplit, hpy]
    · refine ⟨"IndexError: list index out of range", ?_⟩
      simp [convert_stringtime_to_decimaltime, hsplit, hpy]
  · intro s h_field rest2 hsplit hpy
    simp only [String.toList] at hsplit
    refine ⟨"ValueError: invalid literal for int with base 10", ?_⟩
    simp [convert_stringtime_to_decimaltime, hsplit, hpy]
  · intro s h_field m_field rest hv hsplit hh hm
    simp only [String.toList] at hsplit
    refine ⟨"ValueError: invalid literal for int with base 10", ?_⟩
    simp [convert_stringtime_to_decimaltime, hsplit, hh, hm]

/-- C9 witness on concrete well-formed and malformed time strings. -/
theorem C9_time_parsing_witness :
    convert_stringtime_to_decimaltime "07:30" = Except.ok ((7 : ℚ) + (30 : ℚ) / 60) ∧
      (∃ msg, convert_stringtime_to_decimaltime "0730" = Except.error msg) ∧
      (∃ msg, convert_stringtime_to_decimaltime "7x:30" = Except.error msg) ∧
      (∃ msg, convert_stringtime_to_decimaltime "07:3x" = Except.error msg) :=
  ⟨C9_time_parsing.1 "07:30" ['0','7'] ['3','0'] [] 7 30 (by decide) (by decide) (by decide),
    C9_time_parsing.2.1 "0730" ['0','7','3','0'] (by decide),
    C9_time_parsing.2.2.1 "7x:30" ['7','x'] [['3','0']] (by decide) (by decide),
    C9_time_parsing.2.2.2 "07:3x" ['0','7'] ['3','x'] [] 7 (by decide) (by decide)
      (by decide)⟩

end SmartLighting
